import Mathlib

/-
Shallow embedding of the Care AI chat client component
(repository hackaton4e/frontend-userAppDemo, file src/unnamed/part_000,
the defensive variant of the single-file Vue component).

The component's reactive refs become fields of `AppState`; each event
handler and method of the script block becomes a pure function on
`AppState`.  Asynchronous suspension points (the `await fetch`, the
`setTimeout` retry continuation, inbound socket events) are modelled by
explicit arguments carrying the outcome of the suspended operation
(`FetchResponse`, `InboundData`) and by a `FetchStep` result telling
whether a retry was scheduled.  `Date.now()` becomes an explicit `now`
argument.  JavaScript string falsiness (`undefined`, `null`, `""`) is
modelled with `Option String`, `""` counting as falsy where the source
uses `||` or a truthiness test.
-/

namespace CareChat

/-- WebSocket ready states (CONNECTING, OPEN, CLOSING, CLOSED). -/
inductive ReadyState where
  | connecting
  | opened
  | closing
  | closed
deriving DecidableEq, Repr

/-- The transport handle: `new WebSocket(url)` yields a socket in the
CONNECTING state; `connectWebSocket` assigns the four lifecycle
callbacks (`onopen`, `onmessage`, `onerror`, `onclose`), recorded here
as booleans. -/
structure Socket where
  readyState : ReadyState
  hasOnOpen : Bool
  hasOnMessage : Bool
  hasOnError : Bool
  hasOnClose : Bool
deriving DecidableEq, Repr

/-- `msg.sender` of a transcript entry. -/
inductive Sender where
  | user
  | ai
  | system
deriving DecidableEq, Repr

/-- `payload.usage` of an `ai_response` frame (`{ total_tokens }`). -/
structure Usage where
  total_tokens : Nat
deriving DecidableEq, Repr

/-- One entry of `chatMessages`.  User entries have no `type`/`usage`
field; AI entries may carry `usage`; system notices carry
`type = "info"` or `"error"`. -/
structure ChatMessage where
  sender : Sender
  text : String
  type : Option String
  usage : Option Usage
  timestamp : Nat
deriving DecidableEq, Repr

/-- The doctor-summary document: `null`, or a JSON object with an
optional `error` field plus opaque further content (rendered verbatim). -/
inductive SummaryDoc where
  | nullDoc
  | obj (error : Option String) (content : String)
deriving DecidableEq, Repr

/-- JavaScript truthiness of the object itself (`fetchedSummary && ...`):
`null` is falsy, any object is truthy. -/
def SummaryDoc.truthy : SummaryDoc → Bool
  | .nullDoc => false
  | .obj _ _ => true

/-- The `error` field of the parsed body (`fetchedSummary.error`). -/
def SummaryDoc.errorField : SummaryDoc → Option String
  | .nullDoc => none
  | .obj e _ => e

/-- JavaScript truthiness of an optional string value: absent (`undefined`
or `null`) and the empty string are falsy. -/
def jsTruthyStr : Option String → Bool
  | some s => s ≠ ""
  | none => false

/-- `v || fallback` on an optional string value (`payload.text || ...`,
`errorData.message || ...`): the fallback is used when `v` is absent or
empty. -/
def jsOrString (v : Option String) (fallback : String) : String :=
  match v with
  | some s => if s = "" then fallback else s
  | none => fallback

/-- `payload` of an `ai_response` frame. -/
structure AiPayload where
  text : Option String
  usage : Option Usage
deriving DecidableEq, Repr

/-- The fields of a successfully parsed inbound frame that the handler
reads (`messageData.type`, `.payload`, `.text`, `.message`, `.userId`);
each is optional since the frame is arbitrary JSON. -/
structure MessageData where
  type : Option String
  payload : Option AiPayload
  text : Option String
  message : Option String
  userId : Option String
deriving DecidableEq, Repr

/-- One delivery to `socket.onmessage`: either `JSON.parse(event.data)`
throws (`unparseable`), or it yields a `MessageData`. -/
inductive InboundData where
  | unparseable (raw : String)
  | parsed (md : MessageData)
deriving DecidableEq, Repr

/-- Outbound frames written to the socket. -/
inductive OutFrame where
  | init_connection (userId : String)
  | chat_message (userId : String) (message : String)
deriving DecidableEq, Repr

/-- The component's reactive state: `userInput`, `chatMessages`,
`doctorSummary`, `doctorSummaryLoading`, `doctorSummaryError`, the
`socket` variable, `userId`, `connectionStatus`, `isConnected`. -/
structure AppState where
  userInput : String
  chatMessages : List ChatMessage
  doctorSummary : SummaryDoc
  doctorSummaryLoading : Bool
  doctorSummaryError : String
  socket : Option Socket
  userId : String
  connectionStatus : String
  isConnected : Bool
deriving DecidableEq, Repr

/-- `MAX_SUMMARY_RETRIES = 3`. -/
def MAX_SUMMARY_RETRIES : Nat := 3

/-- `SUMMARY_RETRY_DELAY = 3000` (milliseconds). -/
def SUMMARY_RETRY_DELAY : Nat := 3000

/-- The sentinel body message of the "not ready yet" 404 response. -/
def NOT_READY_MESSAGE : String := "Doctor summary not yet available."

/-- The system notice pushed by `addSystemMessage`. -/
def systemEntry (text ty : String) (now : Nat) : ChatMessage :=
  { sender := Sender.system, text := text, type := some ty, usage := none, timestamp := now }

/-- `addSystemMessage(text, type)`: pushes a system notice onto
`chatMessages` (the JS default for `type` is `'info'`; call sites here
always pass it explicitly).  `scrollToBottom` is display-only and
omitted. -/
def addSystemMessage (s : AppState) (text ty : String) (now : Nat) : AppState :=
  { s with chatMessages := s.chatMessages ++ [systemEntry text ty now] }

/-- `socket && (socket.readyState === WebSocket.OPEN || socket.readyState
=== WebSocket.CONNECTING)` — the idempotency guard of
`connectWebSocket`. -/
def socketOpenOrConnecting (s : AppState) : Bool :=
  match s.socket with
  | some sk => sk.readyState == ReadyState.opened || sk.readyState == ReadyState.connecting
  | none => false

/-- The socket produced by `new WebSocket('ws://localhost:3000')` after
the four callback assignments that follow it. -/
def newSocket : Socket :=
  { readyState := ReadyState.connecting, hasOnOpen := true, hasOnMessage := true,
    hasOnError := true, hasOnClose := true }

/-- `connectWebSocket()`: returns unchanged if the socket is already open
or connecting; otherwise sets `connectionStatus = 'Connecting...'` and
opens a fresh transport with the four lifecycle callbacks registered. -/
def connectWebSocket (s : AppState) : AppState :=
  if socketOpenOrConnecting s then s
  else { s with connectionStatus := "Connecting...", socket := some newSocket }

/-- `socket.readyState`, `none` when no socket is held. -/
def socketReadyState (s : AppState) : Option ReadyState :=
  s.socket.map Socket.readyState

/-- `socket.onopen`: marks connected, emits the greeting notice, and
sends the `init_connection` handshake frame. -/
def socketOnOpen (s : AppState) (now : Nat) : AppState × List OutFrame :=
  let s1 := { s with isConnected := true, connectionStatus := "Connected" }
  let s2 := addSystemMessage s1 "Connection established with Care AI." "info" now
  (s2, [OutFrame.init_connection s2.userId])

/-- The synchronous prefix of `fetchDoctorSummary(retryAttempt)` up to
the first `await`: the missing-userId guard (which sets the error and
emits a notice without any network call), then, on the initial
user-triggered attempt only (`retryAttempt === 0`), setting
`doctorSummaryLoading = true` and clearing the prior result and error.
Retry invocations leave all three untouched. -/
def fetchSyncStart (s : AppState) (retryAttempt : Nat) (now : Nat) : AppState :=
  if s.userId = "" then
    addSystemMessage { s with doctorSummaryError := "User ID is not set. Cannot fetch summary." }
      "User ID is not set. Cannot fetch summary." "error" now
  else if retryAttempt = 0 then
    { s with doctorSummaryLoading := true, doctorSummary := SummaryDoc.nullDoc,
             doctorSummaryError := "" }
  else s

/-- `socket.onmessage`: parse failure appends one error notice; a parsed
frame is dispatched on `messageData.type`.  The source is an
`if/else-if` chain on `type`; since the compared tags are mutually
exclusive the chain is rendered here as one test per tag, with the
falsy-`payload` and mismatched-`userId` cases falling through to the
final no-op exactly as in the chain.  The `summary_ready` branch calls
`fetchDoctorSummary()`, whose synchronous prefix is `fetchSyncStart`. -/
def socketOnMessage (s : AppState) (ev : InboundData) (now : Nat) : AppState :=
  match ev with
  | InboundData.unparseable _ =>
      addSystemMessage s "Received an unparseable message from the server." "error" now
  | InboundData.parsed md =>
      match md.type with
      | some t =>
        if t = "ai_response" then
          match md.payload with
          | some payload =>
              { s with chatMessages := s.chatMessages ++
                  [{ sender := Sender.ai,
                     text := jsOrString payload.text "AI response did not contain text.",
                     type := none, usage := payload.usage, timestamp := now }] }
          | none => s
        else if t = "system_message" then
          addSystemMessage s (md.text.getD "") "info" now
        else if t = "error" then
          addSystemMessage s ("Server Error: " ++ (md.message.getD "undefined")) "error" now
        else if t = "summary_ready" then
          if md.userId = some s.userId then
            fetchSyncStart
              (addSystemMessage s "Doctor summary is now ready to be fetched!" "info" now) 0 now
          else s
        else s
      | none => s

/-- `socket.onerror`: marks the connection down and appends an error
notice; does not close or retry. -/
def socketOnError (s : AppState) (now : Nat) : AppState :=
  addSystemMessage
    { s with isConnected := false, connectionStatus := "Connection Error" }
    "WebSocket connection error. Please check server and refresh." "error" now

/-- `socket.onclose(event)`: marks disconnected with the closure code,
appends a notice whose text is the remote reason (or a generic fallback)
except that code 1006 produces the distinguished abnormal-closure
message, and nullifies the socket handle. -/
def socketOnClose (s : AppState) (code : Nat) (reason : String) (now : Nat) : AppState :=
  let s1 := { s with isConnected := false,
                     connectionStatus := "Disconnected (Code: " ++ toString code ++ ")" }
  let closeReason0 := if reason = "" then "Connection closed." else reason
  let closeReason := if code = 1006 then
      "Connection lost abnormally. Please check server status."
    else closeReason0
  let s2 := addSystemMessage s1 closeReason "error" now
  { s2 with socket := none }

/-- JavaScript `String.prototype.trim()`: strips leading and trailing
whitespace (spelled out over the character list so that it reduces in
the kernel). -/
def jsTrim (s : String) : String :=
  ⟨((s.data.dropWhile Char.isWhitespace).reverse.dropWhile Char.isWhitespace).reverse⟩

/-- The guard of `sendMessage`: `userInput.value.trim() === '' || !socket
|| !isConnected.value || socket.readyState !== WebSocket.OPEN`. -/
def sendBlocked (s : AppState) : Bool :=
  jsTrim s.userInput == "" || s.socket == none || !s.isConnected ||
    socketReadyState s != some ReadyState.opened

/-- The refused-send notice text. -/
def cannotSendNotice (now : Nat) : ChatMessage :=
  systemEntry "Cannot send message. Not connected or input is empty." "error" now

/-- The transcript entry pushed by a successful send. -/
def userEntry (text : String) (now : Nat) : ChatMessage :=
  { sender := Sender.user, text := text, type := none, usage := none, timestamp := now }

/-- `sendMessage()`: when the guard fires it appends the refused-send
notice, attempts a reconnect when the failure was connectivity (not
merely empty input), and transmits nothing; otherwise it transmits one
`chat_message` frame, appends one user entry with the sent text, and
clears the input buffer.  The second component lists the frames written
to the socket by this call. -/
def sendMessage (s : AppState) (now : Nat) : AppState × List OutFrame :=
  if sendBlocked s then
    let s1 := addSystemMessage s "Cannot send message. Not connected or input is empty." "error" now
    if !s1.isConnected || (s1.socket != none && socketReadyState s1 != some ReadyState.opened) then
      (connectWebSocket s1, [])
    else (s1, [])
  else
    let s1 := { s with chatMessages := s.chatMessages ++ [userEntry s.userInput now] }
    ({ s1 with userInput := "" }, [OutFrame.chat_message s.userId s.userInput])

/-- The error body of a non-ok HTTP response as read by
`response.json().catch(...)`: `none` when the body was not valid JSON
(the `.catch` fallback object is synthesized), otherwise the parsed
body's optional `message` field. -/
structure HttpFailure where
  status : Nat
  statusText : String
  body : Option (Option String)
deriving DecidableEq, Repr

/-- `errorData.message` after
`await response.json().catch(() => ({ message: ... }))`. -/
def errorDataMessage (f : HttpFailure) : Option String :=
  match f.body with
  | some m => m
  | none => some ("HTTP error! Status: " ++ toString f.status ++ " - " ++ f.statusText)

/-- Outcome of the awaited `fetch` (plus body read) inside
`fetchDoctorSummary`. -/
inductive FetchResponse where
  | success (body : SummaryDoc)
  | successBadJson (errMessage : String)
  | failure (f : HttpFailure)
  | networkError (errMessage : String)
deriving DecidableEq, Repr

/-- What one invocation of `fetchDoctorSummary` did after its awaits
resolved: scheduled `setTimeout(() => fetchDoctorSummary(nextAttempt),
delayMs)` and returned with loading still true, or reached a terminal
outcome. -/
inductive FetchStep where
  | retryScheduled (nextAttempt : Nat) (delayMs : Nat)
  | done
deriving DecidableEq, Repr

/-- The `catch` block of `fetchDoctorSummary`: records the error
message, appends the error notice, and clears the loading flag. -/
def fetchCatch (s : AppState) (errMessage : String) (now : Nat) : AppState × FetchStep :=
  let s1 := addSystemMessage { s with doctorSummaryError := errMessage }
      ("Error fetching summary: " ++ errMessage) "error" now
  ({ s1 with doctorSummaryLoading := false }, FetchStep.done)

/-- The continuation of `fetchDoctorSummary(retryAttempt)` after the
`await fetch` resolves: the not-ready 404 below the retry cap schedules
a delayed retry and leaves the loading flag untouched; every other
non-ok response throws into the catch block; an ok body that
self-reports an error becomes a terminal failure with the summary left
null; otherwise the body is stored, the error cleared, and loading
cleared. -/
def fetchOnResponse (s : AppState) (retryAttempt : Nat) (resp : FetchResponse) (now : Nat) :
    AppState × FetchStep :=
  match resp with
  | FetchResponse.failure f =>
      if f.status = 404 ∧ errorDataMessage f = some NOT_READY_MESSAGE ∧
          retryAttempt < MAX_SUMMARY_RETRIES then
        let s1 := addSystemMessage s
            ("Summary not ready yet. Retrying in " ++ toString (SUMMARY_RETRY_DELAY / 1000) ++
             "s (Attempt " ++ toString (retryAttempt + 1) ++ "/" ++
             toString MAX_SUMMARY_RETRIES ++ ")...") "info" now
        (s1, FetchStep.retryScheduled (retryAttempt + 1) SUMMARY_RETRY_DELAY)
      else
        fetchCatch s
          (jsOrString (errorDataMessage f) ("Failed to fetch summary. Status: " ++ toString f.status))
          now
  | FetchResponse.success fetchedSummary =>
      if fetchedSummary.truthy && jsTruthyStr fetchedSummary.errorField then
        let msg := "Server-side summary generation issue: " ++ (fetchedSummary.errorField.getD "")
        let s1 := addSystemMessage { s with doctorSummaryError := msg } msg "error" now
        ({ s1 with doctorSummary := SummaryDoc.nullDoc, doctorSummaryLoading := false },
         FetchStep.done)
      else
        let s1 := addSystemMessage { s with doctorSummary := fetchedSummary }
            "Doctor summary loaded successfully." "info" now
        ({ s1 with doctorSummaryError := "", doctorSummaryLoading := false }, FetchStep.done)
  | FetchResponse.successBadJson m => fetchCatch s m now
  | FetchResponse.networkError m => fetchCatch s m now

/-- One whole invocation of `fetchDoctorSummary(retryAttempt)`: the
missing-userId guard returns before any network call; otherwise the
synchronous prefix runs and the response continuation consumes `resp`. -/
def fetchAttempt (s : AppState) (retryAttempt : Nat) (resp : FetchResponse) (now : Nat) :
    AppState × FetchStep :=
  if s.userId = "" then (fetchSyncStart s retryAttempt now, FetchStep.done)
  else fetchOnResponse (fetchSyncStart s retryAttempt now) retryAttempt resp now

/-- The states after each successive invocation of the retry loop, the
k-th invocation consuming the k-th response; stops after a terminal
outcome or when the supplied responses run out while a retry is
pending. -/
def fetchTrace (s : AppState) (retryAttempt : Nat) (resps : List FetchResponse) (now : Nat) :
    List (AppState × FetchStep) :=
  match resps with
  | [] => []
  | r :: rest =>
    match fetchAttempt s retryAttempt r now with
    | (s1, FetchStep.done) => [(s1, FetchStep.done)]
    | (s1, FetchStep.retryScheduled next d) =>
        (s1, FetchStep.retryScheduled next d) :: fetchTrace s1 next rest now

/-- The final state of the retry loop over the supplied responses;
the boolean records whether a terminal outcome was reached. -/
def fetchRun (s : AppState) (retryAttempt : Nat) (resps : List FetchResponse) (now : Nat) :
    AppState × Bool :=
  match resps with
  | [] => (s, false)
  | r :: rest =>
    match fetchAttempt s retryAttempt r now with
    | (s1, FetchStep.done) => (s1, true)
    | (s1, FetchStep.retryScheduled next _) => fetchRun s1 next rest now

/-- Folding the message handler over a sequence of inbound deliveries. -/
def processFrames (s : AppState) (evs : List InboundData) (now : Nat) : AppState :=
  match evs with
  | [] => s
  | e :: rest => processFrames (socketOnMessage s e now) rest now

/-- The externally observable summary-panel state, read off the three
refs exactly as the template does: the loading flag wins, then a truthy
document with no error renders as Ready, a non-empty error as Failed,
and otherwise nothing is shown (Idle). -/
inductive SummaryState where
  | idle
  | loading
  | ready
  | failed
deriving DecidableEq, Repr

/-- Abstraction of `AppState` to the summary request state. -/
def summaryUIState (s : AppState) : SummaryState :=
  if s.doctorSummaryLoading then SummaryState.loading
  else if s.doctorSummary.truthy && s.doctorSummaryError == "" then SummaryState.ready
  else if s.doctorSummaryError ≠ "" then SummaryState.failed
  else SummaryState.idle

/-- The not-ready 404 response (`404` with the sentinel body message). -/
def notReadyResponse : FetchResponse :=
  FetchResponse.failure { status := 404, statusText := "Not Found",
                          body := some (some NOT_READY_MESSAGE) }

/-- A concrete component state used to instantiate the theorems:
connected, empty transcript, summary machinery idle. -/
def exState : AppState :=
  { userInput := "", chatMessages := [], doctorSummary := SummaryDoc.nullDoc,
    doctorSummaryLoading := false, doctorSummaryError := "",
    socket := some { readyState := ReadyState.opened, hasOnOpen := true, hasOnMessage := true,
                     hasOnError := true, hasOnClose := true },
    userId := "vue_user_ab12cd", connectionStatus := "Connected", isConnected := true }

/-- A disconnected component state (socket handle released). -/
def exDisconnectedState : AppState :=
  { exState with socket := none, isConnected := false, connectionStatus := "Disconnected" }

/-- `exState` with whitespace-only input in the buffer. -/
def exBlockedState : AppState := { exState with userInput := "   " }

/-- `exState` with a sendable message in the buffer. -/
def exSendState : AppState := { exState with userInput := "hi" }

/-- A state whose summary panel is in the Ready state. -/
def exReadyState : AppState := { exState with doctorSummary := SummaryDoc.obj none "doc" }

/- ## Helper lemmas -/

theorem string_append_ne_empty (p q : String) (hp : p ≠ "") : p ++ q ≠ "" := by
  intro h
  apply hp
  have hd : p.data ++ q.data = [] := by
    have h2 := congrArg String.data h
    simpa [String.data_append] using h2
  have hpd : p.data = [] := (List.append_eq_nil.mp hd).1
  cases p
  simp_all [String.ext_iff]

theorem connectWebSocket_chatMessages (s : AppState) :
    (connectWebSocket s).chatMessages = s.chatMessages := by
  unfold connectWebSocket; split <;> rfl

theorem connectWebSocket_userInput (s : AppState) :
    (connectWebSocket s).userInput = s.userInput := by
  unfold connectWebSocket; split <;> rfl

/- ## Claims -/

/-- Claim C3: a summary fetch whose HTTP response is successful but whose
parsed body carries a truthy `error` field never sets the Ready state:
the document ref stays null, the error message is set, the loading flag
is cleared, and the panel renders Failed. -/
theorem C3_body_error_never_ready (s : AppState) (a : Nat) (e content : String) (now : Nat)
    (huid : s.userId ≠ "") (he : e ≠ "") :
    (fetchAttempt s a (FetchResponse.success (SummaryDoc.obj (some e) content)) now).2 =
      FetchStep.done ∧
    (fetchAttempt s a (FetchResponse.success (SummaryDoc.obj (some e) content)) now).1.doctorSummary =
      SummaryDoc.nullDoc ∧
    (fetchAttempt s a (FetchResponse.success (SummaryDoc.obj (some e) content)) now).1.doctorSummaryLoading =
      false ∧
    (fetchAttempt s a (FetchResponse.success (SummaryDoc.obj (some e) content)) now).1.doctorSummaryError =
      "Server-side summary generation issue: " ++ e ∧
    summaryUIState (fetchAttempt s a (FetchResponse.success (SummaryDoc.obj (some e) content)) now).1 =
      SummaryState.failed := by
  have herr : ("Server-side summary generation issue: " ++ e) ≠ "" :=
    string_append_ne_empty _ _ (by decide)
  unfold fetchAttempt fetchOnResponse fetchSyncStart
  simp [huid, he, SummaryDoc.truthy, SummaryDoc.errorField, jsTruthyStr, addSystemMessage,
        summaryUIState, herr]

/-- Witness for C3 at a concrete state and body. -/
theorem C3_body_error_never_ready_witness :
    exState.userId ≠ "" ∧ ("generation failed" : String) ≠ "" ∧
    summaryUIState
      (fetchAttempt exState 0
        (FetchResponse.success (SummaryDoc.obj (some "generation failed") "x")) 0).1 =
      SummaryState.failed :=
  ⟨by decide, by decide,
   (C3_body_error_never_ready exState 0 "generation failed" "x" 0 (by decide) (by decide)).2.2.2.2⟩

/-- Claim C4: a refused send (empty or whitespace-only input, or
transport not open, which includes being disconnected) transmits no
frame and appends exactly one error notice — in particular no user
transcript entry; an accepted send transmits exactly one `chat_message`
frame carrying the user id and the input text and appends exactly one
user entry with the sent text. -/
theorem C4_send_guard (s : AppState) (now : Nat) :
    (sendBlocked s = true →
      (sendMessage s now).2 = [] ∧
      (sendMessage s now).1.chatMessages = s.chatMessages ++ [cannotSendNotice now]) ∧
    (sendBlocked s = false →
      (sendMessage s now).2 = [OutFrame.chat_message s.userId s.userInput] ∧
      (sendMessage s now).1.chatMessages = s.chatMessages ++ [userEntry s.userInput now]) := by
  constructor
  · intro h
    unfold sendMessage
    simp only [h, if_true]
    constructor
    · split <;> rfl
    · split
      · rw [connectWebSocket_chatMessages]
        rfl
      · rfl
  · intro h
    unfold sendMessage
    simp [h]

/-- Witness for C4: a whitespace-only send, a disconnected send, and an
accepted send at concrete states. -/
theorem C4_send_guard_witness :
    (sendBlocked exBlockedState = true ∧
      (sendMessage exBlockedState 0).2 = [] ∧
      (sendMessage exBlockedState 0).1.chatMessages =
        exBlockedState.chatMessages ++ [cannotSendNotice 0]) ∧
    (sendBlocked exDisconnectedState = true ∧
      (sendMessage exDisconnectedState 0).2 = [] ∧
      (sendMessage exDisconnectedState 0).1.chatMessages =
        exDisconnectedState.chatMessages ++ [cannotSendNotice 0]) ∧
    (sendBlocked exSendState = false ∧
      (sendMessage exSendState 0).2 =
        [OutFrame.chat_message exSendState.userId exSendState.userInput] ∧
      (sendMessage exSendState 0).1.chatMessages =
        exSendState.chatMessages ++ [userEntry exSendState.userInput 0]) :=
  ⟨⟨by decide, (C4_send_guard exBlockedState 0).1 (by decide)⟩,
   ⟨by decide, (C4_send_guard exDisconnectedState 0).1 (by decide)⟩,
   ⟨by decide, (C4_send_guard exSendState 0).2 (by decide)⟩⟩

/-- Claim C6: a close event with code 1006 sets the status string to
`Disconnected (Code: 1006)` and appends the distinguished
abnormal-closure system notice (severity `error`), regardless of the
remote-supplied reason. -/
theorem C6_close_1006 (s : AppState) (reason : String) (now : Nat) :
    (socketOnClose s 1006 reason now).connectionStatus = "Disconnected (Code: 1006)" ∧
    (socketOnClose s 1006 reason now).chatMessages =
      s.chatMessages ++
        [systemEntry "Connection lost abnormally. Please check server status." "error" now] := by
  constructor
  · show ("Disconnected (Code: " ++ toString 1006 ++ ")") = "Disconnected (Code: 1006)"
    rfl
  · unfold socketOnClose
    simp [addSystemMessage]

/-- Claim C7: an inbound payload that fails to parse appends exactly one
system notice of severity `error` and leaves the connection status and
the connected flag unchanged. -/
theorem C7_unparseable_frame (s : AppState) (raw : String) (now : Nat) :
    (socketOnMessage s (InboundData.unparseable raw) now).chatMessages =
      s.chatMessages ++
        [systemEntry "Received an unparseable message from the server." "error" now] ∧
    (socketOnMessage s (InboundData.unparseable raw) now).connectionStatus =
      s.connectionStatus ∧
    (socketOnMessage s (InboundData.unparseable raw) now).isConnected = s.isConnected :=
  ⟨rfl, rfl, rfl⟩

/-- Claim C8: `connectWebSocket` is a no-op (state returned unchanged:
same status, same transport, no re-registration) whenever the held
socket is open or connecting; otherwise it sets the status to
`Connecting...` and installs a fresh transport with all four lifecycle
callbacks registered. -/
theorem C8_connect_idempotent (s : AppState) :
    (socketOpenOrConnecting s = true → connectWebSocket s = s) ∧
    (socketOpenOrConnecting s = false →
      (connectWebSocket s).connectionStatus = "Connecting..." ∧
      (connectWebSocket s).socket = some newSocket ∧
      newSocket.hasOnOpen = true ∧ newSocket.hasOnMessage = true ∧
      newSocket.hasOnError = true ∧ newSocket.hasOnClose = true) := by
  constructor
  · intro h
    unfold connectWebSocket
    simp [h]
  · intro h
    unfold connectWebSocket
    simp [h, newSocket]

/-- Witness for C8: a connected state where `connectWebSocket` is a
no-op, and a disconnected state where it opens a fresh transport. -/
theorem C8_connect_idempotent_witness :
    (socketOpenOrConnecting exState = true ∧ connectWebSocket exState = exState) ∧
    (socketOpenOrConnecting exDisconnectedState = false ∧
      (connectWebSocket exDisconnectedState).connectionStatus = "Connecting...") :=
  ⟨⟨by decide, (C8_connect_idempotent exState).1 (by decide)⟩,
   ⟨by decide, ((C8_connect_idempotent exDisconnectedState).2 (by decide)).1⟩⟩

/-- Claim C10: a refused send leaves the input buffer unchanged; the
buffer is cleared exactly on the calls that transmit a frame. -/
theorem C10_input_cleared_iff_sent (s : AppState) (now : Nat) :
    (sendBlocked s = true →
      (sendMessage s now).1.userInput = s.userInput ∧ (sendMessage s now).2 = []) ∧
    (sendBlocked s = false →
      (sendMessage s now).1.userInput = "" ∧
      (sendMessage s now).2 = [OutFrame.chat_message s.userId s.userInput]) := by
  constructor
  · intro h
    unfold sendMessage
    simp only [h, if_true]
    constructor
    · split
      · rw [connectWebSocket_userInput]
        rfl
      · rfl
    · split <;> rfl
  · intro h
    unfold sendMessage
    simp [h]

/-- Witness for C10: a refused send keeps the buffer, an accepted send
clears it. -/
theorem C10_input_cleared_iff_sent_witness :
    (sendBlocked exBlockedState = true ∧
      (sendMessage exBlockedState 0).1.userInput = exBlockedState.userInput) ∧
    (sendBlocked exSendState = false ∧ (sendMessage exSendState 0).1.userInput = "") :=
  ⟨⟨by decide, ((C10_input_cleared_iff_sent exBlockedState 0).1 (by decide)).1⟩,
   ⟨by decide, ((C10_input_cleared_iff_sent exSendState 0).2 (by decide)).1⟩⟩

/-- Claim C1: with the not-ready 404 delivered to every attempt, the
fetch schedules exactly `MAX_SUMMARY_RETRIES = 3` retries, each after
the fixed `SUMMARY_RETRY_DELAY = 3000` ms, keeps the loading flag true
across all three retries, and then fails terminally: loading cleared
and the error set (to the body's message). -/
theorem C1_retries_exactly_three (s : AppState) (now : Nat) (h : s.userId ≠ "") :
    (fetchTrace s 0 [notReadyResponse, notReadyResponse, notReadyResponse, notReadyResponse]
        now).map Prod.snd =
      [FetchStep.retryScheduled 1 SUMMARY_RETRY_DELAY,
       FetchStep.retryScheduled 2 SUMMARY_RETRY_DELAY,
       FetchStep.retryScheduled 3 SUMMARY_RETRY_DELAY, FetchStep.done] ∧
    (fetchTrace s 0 [notReadyResponse, notReadyResponse, notReadyResponse, notReadyResponse]
        now).map (fun p => p.1.doctorSummaryLoading) = [true, true, true, false] ∧
    (fetchTrace s 0 [notReadyResponse, notReadyResponse, notReadyResponse, notReadyResponse]
        now).map (fun p => p.1.doctorSummaryError) = ["", "", "", NOT_READY_MESSAGE] ∧
    MAX_SUMMARY_RETRIES = 3 ∧ SUMMARY_RETRY_DELAY = 3000 := by
  refine ⟨?_, ?_, ?_, rfl, rfl⟩ <;>
    simp [fetchTrace, fetchAttempt, fetchSyncStart, fetchOnResponse, fetchCatch,
          addSystemMessage, errorDataMessage, jsOrString, notReadyResponse, NOT_READY_MESSAGE,
          MAX_SUMMARY_RETRIES, SUMMARY_RETRY_DELAY, h]

/-- Witness for C1 at a concrete state. -/
theorem C1_retries_exactly_three_witness :
    exState.userId ≠ "" ∧
    (fetchTrace exState 0 [notReadyResponse, notReadyResponse, notReadyResponse, notReadyResponse]
        0).map Prod.snd =
      [FetchStep.retryScheduled 1 SUMMARY_RETRY_DELAY,
       FetchStep.retryScheduled 2 SUMMARY_RETRY_DELAY,
       FetchStep.retryScheduled 3 SUMMARY_RETRY_DELAY, FetchStep.done] :=
  ⟨by decide, (C1_retries_exactly_three exState 0 (by decide)).1⟩

/-- The four tags the claim counts as recognized. -/
def recognizedType (t : Option String) : Bool :=
  match t with
  | some x => x == "ai_response" || x == "system_message" || x == "error" || x == "summary_ready"
  | none => false

/-- An `ai_response` frame whose `payload` field is absent. -/
def exAiNoPayloadFrame : InboundData :=
  InboundData.parsed
    { type := some "ai_response", payload := none, text := none, message := none, userId := none }

/-- Counterexample to claim C2 as stated: the frame
`{"type":"ai_response"}` has a recognized type tag, generates no local
notice, and yet appends nothing, so for the one-frame sequence made of
it the transcript grows by 0, not by the recognized-tag count 1. -/
theorem C2_counterexample :
    recognizedType (some "ai_response") = true ∧
    (socketOnMessage exState exAiNoPayloadFrame 0).chatMessages.length =
      exState.chatMessages.length ∧
    (socketOnMessage exState exAiNoPayloadFrame 0).chatMessages.length ≠
      exState.chatMessages.length + 1 := by
  decide

/-- The number of transcript entries one inbound delivery appends (for a
component whose `userId` is non-empty): one for a parse failure, one
for each frame dispatched by the handler — the guards requiring
`ai_response` to carry a `payload` and `summary_ready` to carry the
matching `userId` — and zero otherwise. -/
def dispatchedFrameCount (uid : String) : InboundData → Nat
  | InboundData.unparseable _ => 1
  | InboundData.parsed md =>
    match md.type with
    | some t =>
      if t = "ai_response" then
        match md.payload with
        | some _ => 1
        | none => 0
      else if t = "system_message" then 1
      else if t = "error" then 1
      else if t = "summary_ready" then (if md.userId = some uid then 1 else 0)
      else 0
    | none => 0

theorem socketOnMessage_userId (s : AppState) (ev : InboundData) (now : Nat) :
    (socketOnMessage s ev now).userId = s.userId := by
  cases ev with
  | unparseable raw => rfl
  | parsed md =>
    obtain ⟨mt, mp, mtext, mmsg, muid⟩ := md
    cases mt with
    | none => rfl
    | some t =>
      simp only [socketOnMessage]
      split_ifs <;>
        first
          | rfl
          | (cases mp <;> rfl)
          | (simp only [fetchSyncStart, addSystemMessage]
             split_ifs <;> rfl)

theorem socketOnMessage_length (s : AppState) (ev : InboundData) (now : Nat)
    (h : s.userId ≠ "") :
    (socketOnMessage s ev now).chatMessages.length =
      s.chatMessages.length + dispatchedFrameCount s.userId ev := by
  cases ev with
  | unparseable raw => simp [socketOnMessage, dispatchedFrameCount, addSystemMessage]
  | parsed md =>
    obtain ⟨mt, mp, mtext, mmsg, muid⟩ := md
    cases mt with
    | none => simp [socketOnMessage, dispatchedFrameCount]
    | some t =>
      simp only [socketOnMessage, dispatchedFrameCount]
      cases mp <;> split_ifs <;> simp_all [addSystemMessage, fetchSyncStart, systemEntry]

/-- Claim C2, amended: the transcript grows by exactly one entry per
parse failure and per frame the handler dispatches — a recognized tag
whose guard also holds: `ai_response` must carry a `payload`, and
`summary_ready` must carry the session's `userId`.  Frames with an
unrecognized tag, `ai_response` frames without a payload, and
`summary_ready` frames for another user append nothing. -/
theorem C2_amended_transcript_count (s : AppState) (evs : List InboundData) (now : Nat)
    (h : s.userId ≠ "") :
    (processFrames s evs now).chatMessages.length =
      s.chatMessages.length + (evs.map (dispatchedFrameCount s.userId)).sum := by
  induction evs generalizing s with
  | nil => simp [processFrames]
  | cons e rest ih =>
    have huid : (socketOnMessage s e now).userId = s.userId := socketOnMessage_userId s e now
    have h2 : (socketOnMessage s e now).userId ≠ "" := by rw [huid]; exact h
    calc (processFrames s (e :: rest) now).chatMessages.length
        = (processFrames (socketOnMessage s e now) rest now).chatMessages.length := rfl
      _ = (socketOnMessage s e now).chatMessages.length +
            (rest.map (dispatchedFrameCount (socketOnMessage s e now).userId)).sum := ih _ h2
      _ = s.chatMessages.length + dispatchedFrameCount s.userId e +
            (rest.map (dispatchedFrameCount s.userId)).sum := by
            rw [huid, socketOnMessage_length s e now h]
      _ = s.chatMessages.length + ((e :: rest).map (dispatchedFrameCount s.userId)).sum := by
            simp [List.sum_cons]
            omega

/-- A sample frame sequence: a system message, an `ai_response` without
payload, a parse failure, and an unrecognized tag. -/
def exFrames : List InboundData :=
  [InboundData.parsed
     { type := some "system_message", payload := none, text := some "hello", message := none,
       userId := none },
   exAiNoPayloadFrame,
   InboundData.unparseable "garbage",
   InboundData.parsed
     { type := some "mystery", payload := none, text := none, message := none, userId := none }]

/-- Witness for the amended C2 at a concrete state and frame sequence. -/
theorem C2_amended_transcript_count_witness :
    exState.userId ≠ "" ∧
    (processFrames exState exFrames 0).chatMessages.length =
      exState.chatMessages.length + (exFrames.map (dispatchedFrameCount exState.userId)).sum :=
  ⟨by decide, C2_amended_transcript_count exState exFrames 0 (by decide)⟩

/-- Counterexample to claim C5 as stated: from a settled Ready state a
user-initiated fetch (the initial `retryAttempt = 0` call) enters
Loading, although the claim lists only Idle, Failed, or Loading itself
as possible predecessors. -/
theorem C5_counterexample :
    summaryUIState exReadyState = SummaryState.ready ∧
    summaryUIState (fetchSyncStart exReadyState 0 0) = SummaryState.loading := by
  decide

/-- Responses whose terminal messages are non-degenerate: an ok body is
a JSON document rather than `null`, and thrown errors carry a non-empty
message.  (A 200 body `null` would settle with neither Ready nor Failed
shown, and an empty thrown message would clear the error string.) -/
def wellFormedResponse : FetchResponse → Bool
  | FetchResponse.success b => b.truthy
  | FetchResponse.successBadJson m => m != ""
  | FetchResponse.networkError m => m != ""
  | FetchResponse.failure _ => true

theorem jsOrString_ne_empty (v : Option String) (fb : String) (hfb : fb ≠ "") :
    jsOrString v fb ≠ "" := by
  unfold jsOrString
  cases v with
  | none => exact hfb
  | some x =>
    by_cases hx : x = ""
    · simp [hx, hfb]
    · simp [hx]

theorem fetchSyncStart_userId (s : AppState) (a now : Nat) :
    (fetchSyncStart s a now).userId = s.userId := by
  unfold fetchSyncStart addSystemMessage
  split_ifs <;> rfl

theorem fetchOnResponse_userId (s : AppState) (a : Nat) (r : FetchResponse) (now : Nat) :
    (fetchOnResponse s a r now).1.userId = s.userId := by
  cases r with
  | success b =>
    simp only [fetchOnResponse]
    split_ifs <;> rfl
  | successBadJson m => rfl
  | networkError m => rfl
  | failure f =>
    simp only [fetchOnResponse]
    split_ifs <;> rfl

theorem fetchAttempt_userId (s : AppState) (a : Nat) (r : FetchResponse) (now : Nat) :
    (fetchAttempt s a r now).1.userId = s.userId := by
  unfold fetchAttempt
  split_ifs with h
  · exact fetchSyncStart_userId s a now
  · rw [fetchOnResponse_userId]
    exact fetchSyncStart_userId s a now

theorem fetchAttempt_done_settles (s : AppState) (a : Nat) (r : FetchResponse) (now : Nat)
    (huid : s.userId ≠ "") (hwf : wellFormedResponse r = true)
    (hdone : (fetchAttempt s a r now).2 = FetchStep.done) :
    summaryUIState (fetchAttempt s a r now).1 = SummaryState.ready ∨
    summaryUIState (fetchAttempt s a r now).1 = SummaryState.failed := by
  unfold fetchAttempt at hdone ⊢
  rw [if_neg huid] at hdone ⊢
  cases r with
  | success b =>
    cases b with
    | nullDoc => simp [wellFormedResponse, SummaryDoc.truthy] at hwf
    | obj e c =>
      simp only [fetchOnResponse, SummaryDoc.truthy, SummaryDoc.errorField, Bool.true_and]
      by_cases he : jsTruthyStr e = true
      · right
        have herr : ("Server-side summary generation issue: " ++ e.getD "") ≠ "" :=
          string_append_ne_empty _ _ (by decide)
        rw [if_pos he]
        simp [summaryUIState, addSystemMessage, SummaryDoc.truthy, herr]
      · left
        rw [if_neg he]
        simp [summaryUIState, addSystemMessage, SummaryDoc.truthy]
  | successBadJson m =>
    simp only [fetchOnResponse, fetchCatch]
    right
    have hm : m ≠ "" := by
      unfold wellFormedResponse at hwf
      simpa using hwf
    simp [summaryUIState, addSystemMessage, hm]
  | networkError m =>
    simp only [fetchOnResponse, fetchCatch]
    right
    have hm : m ≠ "" := by
      unfold wellFormedResponse at hwf
      simpa using hwf
    simp [summaryUIState, addSystemMessage, hm]
  | failure f =>
    simp only [fetchOnResponse] at hdone ⊢
    by_cases hretry : f.status = 404 ∧ errorDataMessage f = some NOT_READY_MESSAGE ∧
        a < MAX_SUMMARY_RETRIES
    · rw [if_pos hretry] at hdone
      simp at hdone
    · rw [if_neg hretry]
      simp only [fetchCatch]
      right
      have hmsg : jsOrString (errorDataMessage f)
          ("Failed to fetch summary. Status: " ++ toString f.status) ≠ "" :=
        jsOrString_ne_empty _ _ (string_append_ne_empty _ _ (by decide))
      simp [summaryUIState, addSystemMessage, hmsg]

theorem fetchRun_done_settles (resps : List FetchResponse) (s : AppState) (a : Nat) (now : Nat)
    (huid : s.userId ≠ "") (hwf : ∀ r ∈ resps, wellFormedResponse r = true)
    (hdone : (fetchRun s a resps now).2 = true) :
    summaryUIState (fetchRun s a resps now).1 = SummaryState.ready ∨
    summaryUIState (fetchRun s a resps now).1 = SummaryState.failed := by
  induction resps generalizing s a with
  | nil => simp [fetchRun] at hdone
  | cons r rest ih =>
    unfold fetchRun at hdone ⊢
    cases hstep : fetchAttempt s a r now with
    | mk s1 step =>
      cases step with
      | done =>
        simp only [hstep]
        have hres := fetchAttempt_done_settles s a r now huid (hwf r (by simp))
          (by rw [hstep])
        rw [hstep] at hres
        simpa using hres
      | retryScheduled next d =>
        simp only [hstep] at hdone ⊢
        have hu : s1.userId = s.userId := by
          have h2 := fetchAttempt_userId s a r now
          rw [hstep] at h2
          exact h2
        refine ih _ _ ?_ ?_ hdone
        · rw [hu]; exact huid
        · intro x hx
          exact hwf x (by simp [hx])

/-- Claim C5, amended: Loading is entered only by the initial
`retryAttempt = 0` call — which sets the loading flag and clears the
prior result and error — and that call may start from any settled
state, Ready included (the fetch button stays enabled after a success,
so a user refetch transitions Ready to Loading); retry invocations
leave the three flags untouched; and a fetch over well-formed responses
that reaches a terminal outcome settles the panel in exactly one of
Ready or Failed. -/
theorem C5_amended_loading_protocol (s : AppState) (a : Nat) (resps : List FetchResponse)
    (now : Nat) (huid : s.userId ≠ "")
    (hwf : ∀ r ∈ resps, wellFormedResponse r = true) :
    ((fetchSyncStart s 0 now).doctorSummaryLoading = true ∧
     (fetchSyncStart s 0 now).doctorSummary = SummaryDoc.nullDoc ∧
     (fetchSyncStart s 0 now).doctorSummaryError = "") ∧
    (a ≠ 0 → fetchSyncStart s a now = s) ∧
    ((fetchRun s 0 resps now).2 = true →
      summaryUIState (fetchRun s 0 resps now).1 = SummaryState.ready ∨
      summaryUIState (fetchRun s 0 resps now).1 = SummaryState.failed) := by
  refine ⟨?_, ?_, ?_⟩
  · unfold fetchSyncStart
    rw [if_neg huid, if_pos rfl]
    exact ⟨rfl, rfl, rfl⟩
  · intro ha
    unfold fetchSyncStart
    rw [if_neg huid, if_neg ha]
  · intro hdone
    exact fetchRun_done_settles resps s 0 now huid hwf hdone

/-- A not-ready response followed by a successful document. -/
def exResps : List FetchResponse :=
  [notReadyResponse, FetchResponse.success (SummaryDoc.obj none "doc")]

/-- Witness for the amended C5 at a concrete state, retry attempt and
response sequence. -/
theorem C5_amended_loading_protocol_witness :
    exState.userId ≠ "" ∧ (∀ r ∈ exResps, wellFormedResponse r = true) ∧
    (1 : Nat) ≠ 0 ∧ (fetchRun exState 0 exResps 0).2 = true ∧
    (fetchSyncStart exState 0 0).doctorSummaryLoading = true ∧
    fetchSyncStart exState 1 0 = exState ∧
    (summaryUIState (fetchRun exState 0 exResps 0).1 = SummaryState.ready ∨
     summaryUIState (fetchRun exState 0 exResps 0).1 = SummaryState.failed) :=
  ⟨by decide, by decide, by decide, by decide,
   (C5_amended_loading_protocol exState 1 exResps 0 (by decide) (by decide)).1.1,
   (C5_amended_loading_protocol exState 1 exResps 0 (by decide) (by decide)).2.1 (by decide),
   (C5_amended_loading_protocol exState 1 exResps 0 (by decide) (by decide)).2.2 (by decide)⟩

/-- `s2`'s transcript is `s1`'s with zero or more entries appended at
the end: nothing already present is mutated, removed or reordered. -/
def extendsTranscript (s1 s2 : AppState) : Prop :=
  ∃ t, s2.chatMessages = s1.chatMessages ++ t

theorem extendsTranscript_rfl (s : AppState) : extendsTranscript s s :=
  ⟨[], by simp⟩

theorem extendsTranscript_trans (s1 s2 s3 : AppState)
    (h1 : extendsTranscript s1 s2) (h2 : extendsTranscript s2 s3) :
    extendsTranscript s1 s3 := by
  obtain ⟨t1, e1⟩ := h1
  obtain ⟨t2, e2⟩ := h2
  exact ⟨t1 ++ t2, by simp [e2, e1]⟩

theorem fetchSyncStart_extends (s : AppState) (a now : Nat) :
    extendsTranscript s (fetchSyncStart s a now) := by
  unfold fetchSyncStart addSystemMessage
  split_ifs <;> first | exact ⟨_, rfl⟩ | exact extendsTranscript_rfl _

theorem socketOnMessage_extends (s : AppState) (ev : InboundData) (now : Nat) :
    extendsTranscript s (socketOnMessage s ev now) := by
  cases ev with
  | unparseable raw => exact ⟨_, rfl⟩
  | parsed md =>
    obtain ⟨mt, mp, mtext, mmsg, muid⟩ := md
    cases mt with
    | none => exact extendsTranscript_rfl _
    | some t =>
      simp only [socketOnMessage]
      split_ifs <;>
        first
          | exact ⟨_, rfl⟩
          | exact extendsTranscript_rfl _
          | (cases mp with
             | none => exact extendsTranscript_rfl _
             | some payload => exact ⟨_, rfl⟩)
          | exact extendsTranscript_trans _ _ _ ⟨_, rfl⟩ (fetchSyncStart_extends _ 0 now)

theorem fetchOnResponse_extends (s : AppState) (a : Nat) (r : FetchResponse) (now : Nat) :
    extendsTranscript s (fetchOnResponse s a r now).1 := by
  cases r <;> simp only [fetchOnResponse, fetchCatch] <;> (try split_ifs) <;> exact ⟨_, rfl⟩

theorem fetchAttempt_extends (s : AppState) (a : Nat) (r : FetchResponse) (now : Nat) :
    extendsTranscript s (fetchAttempt s a r now).1 := by
  unfold fetchAttempt
  split_ifs with h
  · exact fetchSyncStart_extends s a now
  · exact extendsTranscript_trans _ _ _ (fetchSyncStart_extends s a now)
      (fetchOnResponse_extends _ a r now)

theorem fetchRun_extends (resps : List FetchResponse) (s : AppState) (a : Nat) (now : Nat) :
    extendsTranscript s (fetchRun s a resps now).1 := by
  induction resps generalizing s a with
  | nil => exact extendsTranscript_rfl _
  | cons r rest ih =>
    unfold fetchRun
    cases hstep : fetchAttempt s a r now with
    | mk s1 step =>
      have hext : extendsTranscript s s1 := by
        have h2 := fetchAttempt_extends s a r now
        rw [hstep] at h2
        exact h2
      cases step with
      | done => exact hext
      | retryScheduled next d => exact extendsTranscript_trans _ _ _ hext (ih _ _)

theorem sendMessage_extends (s : AppState) (now : Nat) :
    extendsTranscript s (sendMessage s now).1 := by
  unfold sendMessage
  split_ifs
  · refine ⟨[cannotSendNotice now], ?_⟩
    simp only []
    split
    · rw [connectWebSocket_chatMessages]
      rfl
    · rfl
  · exact ⟨_, rfl⟩

/-- Claim C9: the transcript is append-only under every operation of the
component — inbound dispatch, local notices, the connection lifecycle
callbacks, sends, reconnects, and the whole summary-fetch loop: each
leaves the existing entries in place and in order and only appends. -/
theorem C9_transcript_append_only (s : AppState) (text ty : String) (ev : InboundData)
    (code : Nat) (reason : String) (a : Nat) (resp : FetchResponse)
    (resps : List FetchResponse) (now : Nat) :
    extendsTranscript s (addSystemMessage s text ty now) ∧
    extendsTranscript s (socketOnOpen s now).1 ∧
    extendsTranscript s (socketOnMessage s ev now) ∧
    extendsTranscript s (socketOnError s now) ∧
    extendsTranscript s (socketOnClose s code reason now) ∧
    extendsTranscript s (sendMessage s now).1 ∧
    extendsTranscript s (connectWebSocket s) ∧
    extendsTranscript s (fetchAttempt s a resp now).1 ∧
    extendsTranscript s (fetchRun s a resps now).1 := by
  refine ⟨⟨_, rfl⟩, ⟨_, rfl⟩, socketOnMessage_extends s ev now, ⟨_, rfl⟩, ⟨_, rfl⟩,
          sendMessage_extends s now, ?_, fetchAttempt_extends s a resp now,
          fetchRun_extends resps s a now⟩
  rw [extendsTranscript, connectWebSocket_chatMessages]
  exact ⟨[], by simp⟩

end CareChat
